import Mathlib

/-!
Verification development for the lane-wise traffic congestion core
(cv-module). Shallow embedding of:
  congestion_analyse/congestion_state.py  (CongestionDetector)
  congestion_analyse/density.py           (compute_density_polygon)
  congestion_analyse/speed.py             (compute_average_speed)
  congestion_analyse/lane_geometry.py     (point_in_polygon)
  runner_tc.py                            (lane assignment, compute_lane_speed)
Python ints are modelled as ℤ/ℕ, Python float arithmetic as exact ℚ (for the
averaged scores and density ratios) and ℝ (for the square root in the speed
estimator). Python `//` on ints is floor division, which for the positive
divisor 2 coincides with Lean's `Int` division.
-/

/-- `DENSITY_SCORE` table from congestion_state.py: LOW=0, MEDIUM=1, HIGH=2. -/
def DENSITY_SCORE : List (String × ℕ) :=
  [("LOW", 0), ("MEDIUM", 1), ("HIGH", 2)]

/-- `SPEED_SCORE` table from congestion_state.py: HIGH=0, MEDIUM=1, LOW=2. -/
def SPEED_SCORE : List (String × ℕ) :=
  [("HIGH", 0), ("MEDIUM", 1), ("LOW", 2)]

/-- One `collections.deque(maxlen := w)` append: the new element goes to the
back and elements are dropped from the front so that at most `maxlen` remain. -/
def dequeAppend (maxlen : ℕ) (d : List ℕ) (x : ℕ) : List ℕ :=
  (d ++ [x]).drop (d.length + 1 - maxlen)

/-- State of `CongestionDetector` (congestion_state.py): window size plus the
two history deques, stored front-to-back. -/
structure CongestionDetector where
  window_size : ℕ
  density_hist : List ℕ
  speed_hist : List ℕ
  deriving Repr, DecidableEq

/-- `CongestionDetector.__init__(window_size)`: empty deques. -/
def CongestionDetector.init (w : ℕ) : CongestionDetector :=
  ⟨w, [], []⟩

/-- `CongestionDetector.update(density_level, speed_level)`: out-of-table
inputs cause an early return (no state change); otherwise both codes are
appended to their deques. -/
def CongestionDetector.update (det : CongestionDetector)
    (density_level speed_level : String) : CongestionDetector :=
  match DENSITY_SCORE.lookup density_level with
  | none => det
  | some dc =>
    match SPEED_SCORE.lookup speed_level with
    | none => det
    | some sc =>
      ⟨det.window_size,
       dequeAppend det.window_size det.density_hist dc,
       dequeAppend det.window_size det.speed_hist sc⟩

/-- `sum(buf) / len(buf)` as an exact rational. -/
def avgQ (l : List ℕ) : ℚ :=
  (l.sum : ℚ) / (l.length : ℚ)

/-- `CongestionDetector.get_state()`: UNKNOWN on an empty buffer, otherwise
the ordered threshold cascade over the two averaged scores. -/
def CongestionDetector.get_state (det : CongestionDetector) : String :=
  if det.density_hist = [] ∨ det.speed_hist = [] then "UNKNOWN"
  else
    if 1.6 ≤ avgQ det.density_hist ∧ 1.6 ≤ avgQ det.speed_hist then
      "SEVERE_CONGESTION"
    else if 1.0 ≤ avgQ det.density_hist ∧ 1.2 ≤ avgQ det.speed_hist then
      "HIGH_CONGESTION"
    else if 1.5 ≤ avgQ det.density_hist ∧ avgQ det.speed_hist < 1.2 then
      "MODERATE_CONGESTION"
    else if avgQ det.density_hist < 0.5 then "FREE_FLOW"
    else "NORMAL"

/-- Run a detector from the freshly constructed state over a list of
(density_level, speed_level) update calls. -/
def runDetector (w : ℕ) (inputs : List (String × String)) : CongestionDetector :=
  inputs.foldl (fun det p => det.update p.1 p.2) (CongestionDetector.init w)

/-- The suffix of the last `n` elements of a list. -/
def lastN (n : ℕ) (l : List ℕ) : List ℕ :=
  l.drop (l.length - n)

/-- Density code of a level string, defaulting to 0 (only used on valid
levels). -/
def densityCode (s : String) : ℕ :=
  (DENSITY_SCORE.lookup s).getD 0

/-- Speed code of a level string, defaulting to 0 (only used on valid
levels). -/
def speedCode (s : String) : ℕ :=
  (SPEED_SCORE.lookup s).getD 0

/-- A (density_level, speed_level) pair accepted by `update`. -/
def validInput (p : String × String) : Prop :=
  (DENSITY_SCORE.lookup p.1).isSome ∧ (SPEED_SCORE.lookup p.2).isSome

instance (p : String × String) : Decidable (validInput p) := by
  unfold validInput; infer_instance

/-- Signed area test: positive when `p` is left of the directed line `a → b`. -/
def isLeft (a b p : ℤ × ℤ) : ℤ :=
  (b.1 - a.1) * (p.2 - a.2) - (p.1 - a.1) * (b.2 - a.2)

/-- `p` lies on the closed segment from `a` to `b`. -/
def onSeg (p a b : ℤ × ℤ) : Prop :=
  isLeft a b p = 0 ∧ min a.1 b.1 ≤ p.1 ∧ p.1 ≤ max a.1 b.1 ∧
    min a.2 b.2 ≤ p.2 ∧ p.2 ≤ max a.2 b.2

instance (p a b : ℤ × ℤ) : Decidable (onSeg p a b) := by
  unfold onSeg; infer_instance

/-- Edge list of a closed polygon: consecutive vertex pairs, wrapping around. -/
def polyEdges (poly : List (ℤ × ℤ)) : List ((ℤ × ℤ) × (ℤ × ℤ)) :=
  poly.zip (poly.drop 1 ++ poly.take 1)

/-- `p` lies on the boundary of the polygon. -/
def onBoundary (poly : List (ℤ × ℤ)) (p : ℤ × ℤ) : Prop :=
  ∃ e ∈ polyEdges poly, onSeg p e.1 e.2

instance (poly : List (ℤ × ℤ)) (p : ℤ × ℤ) : Decidable (onBoundary poly p) := by
  unfold onBoundary; infer_instance

/-- The directed edge `a → b` crosses the horizontal ray from `p` to the
right (standard crossing-number rule: upward edges count when `p` is strictly
left, downward edges when strictly right). -/
def edgeCrosses (p a b : ℤ × ℤ) : Bool :=
  decide ((a.2 ≤ p.2 ∧ p.2 < b.2 ∧ 0 < isLeft a b p) ∨
    (b.2 ≤ p.2 ∧ p.2 < a.2 ∧ isLeft a b p < 0))

/-- Number of polygon edges crossing the rightward ray from `p`. -/
def crossNum (poly : List (ℤ × ℤ)) (p : ℤ × ℤ) : ℕ :=
  (polyEdges poly).countP (fun e => edgeCrosses p e.1 e.2)

/-- Modelled from the spec: `cv2.pointPolygonTest(poly, p, False)` (OpenCV,
external to the repository), per the geometry contract: a standard
ray-casting point-in-polygon test over the vertex list, returning `0` for a
point exactly on the boundary, `1` strictly inside (odd crossing number),
`-1` strictly outside. -/
def pointPolygonTest (poly : List (ℤ × ℤ)) (p : ℤ × ℤ) : ℤ :=
  if onBoundary poly p then 0
  else if crossNum poly p % 2 = 1 then 1
  else -1

/-- `point_in_polygon(point, polygon)` from lane_geometry.py: non-negative
test result. -/
def point_in_polygon (p : ℤ × ℤ) (poly : List (ℤ × ℤ)) : Bool :=
  decide (0 ≤ pointPolygonTest poly p)

/-- Bounding box `[x1, y1, x2, y2]`. -/
structure BBox where
  x1 : ℤ
  y1 : ℤ
  x2 : ℤ
  y2 : ℤ
  deriving Repr, DecidableEq

/-- One tracked object of the current frame. -/
structure TrackedObject where
  id : ℕ
  bbox : BBox
  cls : String
  deriving Repr, DecidableEq

/-- The integer centroid both density.py and runner_tc.py compute with
Python floor division: `((x1+x2)//2, (y1+y2)//2)`. -/
def centroidInt (b : BBox) : ℤ × ℤ :=
  ((b.x1 + b.x2) / 2, (b.y1 + b.y2) / 2)

/-- Python `str.lower` on one ASCII character. -/
def charLower (c : Char) : Char :=
  if 'A' ≤ c ∧ c ≤ 'Z' then Char.ofNat (c.toNat + 32) else c

/-- Python `str.lower` (class labels are ASCII). -/
def strLower (s : String) : String :=
  ⟨s.data.map charLower⟩

/-- Per-class weight lookup: `VEHICLE_WEIGHTS[cls.lower()]` if present,
otherwise the object contributes nothing. The weight table itself is a
tunable configuration (congestion_analyse/config.py), passed as a
parameter. -/
def weightContrib (weights : List (String × ℚ)) (o : TrackedObject) : ℚ :=
  (weights.lookup (strLower o.cls)).getD 0

/-- Density classification from density.py: `< 0.4 → LOW`,
`< 0.7 → MEDIUM`, else `HIGH`. -/
def densityLevelOf (r : ℚ) : String :=
  if r < 0.4 then "LOW" else if r < 0.7 then "MEDIUM" else "HIGH"

/-- Result record of the density estimator. -/
structure DensityResult where
  occupancy : ℚ
  ratioVal : ℚ
  density_level : String
  deriving Repr, DecidableEq

/-- `compute_density_polygon(tracked_objects, lane_polygon, road_capacity)`
from density.py: accumulate per-class weights of objects whose floor-divided
centroid passes the non-negative polygon test, divide by the capacity when
positive, classify. -/
def compute_density_polygon (weights : List (String × ℚ))
    (tracked_objects : List TrackedObject) (lane_polygon : List (ℤ × ℤ))
    (road_capacity : ℚ) : DensityResult :=
  let occupancy := tracked_objects.foldl
    (fun acc o =>
      if 0 ≤ pointPolygonTest lane_polygon (centroidInt o.bbox) then
        acc + weightContrib weights o
      else acc) 0
  let r := if 0 < road_capacity then occupancy / road_capacity else 0
  ⟨occupancy, r, densityLevelOf r⟩

/-- Squared Euclidean pixel distance between two integer positions. -/
def distSq (p q : ℤ × ℤ) : ℤ :=
  (q.1 - p.1) ^ 2 + (q.2 - p.2) ^ 2

/-- Per-track pixel-per-second rate (speed.py loop body):
`positions[-2]`, `positions[-1]`, Euclidean distance, times fps. -/
noncomputable def trackRate (positions : List (ℤ × ℤ)) (fps : ℝ) : ℝ :=
  Real.sqrt ((distSq (positions.getD (positions.length - 2) (0, 0))
    (positions.getD (positions.length - 1) (0, 0)) : ℤ) : ℝ) * fps

open Classical in
/-- Speed classification from speed.py: `< 10 → LOW`, `< 20 → MEDIUM`,
else `HIGH`. -/
noncomputable def speedLevelOf (v : ℝ) : String :=
  if v < 10 then "LOW" else if v < 20 then "MEDIUM" else "HIGH"

/-- Result record of the speed estimator. -/
structure SpeedResult where
  avg_speed : ℝ
  speed_level : String

/-- `compute_average_speed(track_history, fps)` from speed.py: accumulate
rate and count over histories with at least two positions, average (0 when
no track qualifies), classify. The history dict is modelled as an
association list in insertion order. -/
noncomputable def compute_average_speed
    (track_history : List (ℕ × List (ℤ × ℤ))) (fps : ℝ) : SpeedResult :=
  let tc := track_history.foldl
    (fun (acc : ℝ × ℕ) kv =>
      if kv.2.length < 2 then acc else (acc.1 + trackRate kv.2 fps, acc.2 + 1))
    ((0 : ℝ), (0 : ℕ))
  let avg := if 0 < tc.2 then tc.1 / (tc.2 : ℝ) else 0
  ⟨avg, speedLevelOf avg⟩

/-- `FRAME_SKIP` constant from runner_tc.py. -/
def FRAME_SKIP : ℝ := 15

/-- Python dict assignment `d[k] = v` on an insertion-ordered association
list: overwrite in place if the key exists, else append at the back. -/
def dictInsert (d : List (ℕ × List (ℤ × ℤ))) (k : ℕ) (v : List (ℤ × ℤ)) :
    List (ℕ × List (ℤ × ℤ)) :=
  if d.any (fun kv => kv.1 = k) then
    d.map (fun kv => if kv.1 = k then (k, v) else kv)
  else d ++ [(k, v)]

/-- The `lane_tracks` dict built by `compute_lane_speed` in runner_tc.py:
for each lane object whose id is a key of `track_history`, copy its
history. -/
def laneTracks (lane_objects : List TrackedObject)
    (track_history : List (ℕ × List (ℤ × ℤ))) : List (ℕ × List (ℤ × ℤ)) :=
  lane_objects.foldl
    (fun d o =>
      match track_history.lookup o.id with
      | some v => dictInsert d o.id v
      | none => d) []

/-- `compute_lane_speed(lane_objects, track_history, fps)` from
runner_tc.py: restrict the history to the lane's ids and call
`compute_average_speed` with `fps / FRAME_SKIP`. -/
noncomputable def compute_lane_speed (lane_objects : List TrackedObject)
    (track_history : List (ℕ × List (ℤ × ℤ))) (fps : ℝ) : SpeedResult :=
  compute_average_speed (laneTracks lane_objects track_history)
    (fps / FRAME_SKIP)

/-- The lane-assignment loop of runner_tc.py: each object goes to lane 1 if
its centroid passes the lane-1 polygon test, otherwise to lane 2 if it
passes the lane-2 test, otherwise to neither. -/
def laneAssign (objs : List TrackedObject) (lane1_poly lane2_poly : List (ℤ × ℤ)) :
    List TrackedObject × List TrackedObject :=
  match objs with
  | [] => ([], [])
  | o :: rest =>
    let r := laneAssign rest lane1_poly lane2_poly
    if point_in_polygon (centroidInt o.bbox) lane1_poly then
      (o :: r.1, r.2)
    else if point_in_polygon (centroidInt o.bbox) lane2_poly then
      (r.1, o :: r.2)
    else r

/-- C1: `get_state` returns UNKNOWN when either buffer is empty; otherwise it
applies the ordered threshold rules to the two buffer averages, first match
winning: SEVERE at density ≥ 1.6 and speed ≥ 1.6, else HIGH at density ≥ 1.0
and speed ≥ 1.2, else MODERATE at density ≥ 1.5 and speed < 1.2, else
FREE_FLOW at density < 0.5, else NORMAL. In particular averages exactly
(1.6, 1.6) give SEVERE_CONGESTION although the HIGH rule also matches, and
averages exactly (1.0, 1.2) give HIGH_CONGESTION. -/
theorem c1_get_state_rules (det : CongestionDetector) :
    (det.density_hist = [] ∨ det.speed_hist = [] →
      det.get_state = "UNKNOWN") ∧
    (det.density_hist ≠ [] → det.speed_hist ≠ [] →
      ((1.6 ≤ avgQ det.density_hist ∧ 1.6 ≤ avgQ det.speed_hist →
          det.get_state = "SEVERE_CONGESTION") ∧
       (¬(1.6 ≤ avgQ det.density_hist ∧ 1.6 ≤ avgQ det.speed_hist) →
          1.0 ≤ avgQ det.density_hist → 1.2 ≤ avgQ det.speed_hist →
          det.get_state = "HIGH_CONGESTION") ∧
       (¬(1.6 ≤ avgQ det.density_hist ∧ 1.6 ≤ avgQ det.speed_hist) →
          ¬(1.0 ≤ avgQ det.density_hist ∧ 1.2 ≤ avgQ det.speed_hist) →
          1.5 ≤ avgQ det.density_hist → avgQ det.speed_hist < 1.2 →
          det.get_state = "MODERATE_CONGESTION") ∧
       (¬(1.6 ≤ avgQ det.density_hist ∧ 1.6 ≤ avgQ det.speed_hist) →
          ¬(1.0 ≤ avgQ det.density_hist ∧ 1.2 ≤ avgQ det.speed_hist) →
          ¬(1.5 ≤ avgQ det.density_hist ∧ avgQ det.speed_hist < 1.2) →
          avgQ det.density_hist < 0.5 →
          det.get_state = "FREE_FLOW") ∧
       (¬(1.6 ≤ avgQ det.density_hist ∧ 1.6 ≤ avgQ det.speed_hist) →
          ¬(1.0 ≤ avgQ det.density_hist ∧ 1.2 ≤ avgQ det.speed_hist) →
          ¬(1.5 ≤ avgQ det.density_hist ∧ avgQ det.speed_hist < 1.2) →
          ¬(avgQ det.density_hist < 0.5) →
          det.get_state = "NORMAL"))) ∧
    (avgQ [2, 2, 2, 1, 1] = 1.6 ∧
      CongestionDetector.get_state ⟨5, [2, 2, 2, 1, 1], [2, 2, 2, 1, 1]⟩ =
        "SEVERE_CONGESTION") ∧
    (avgQ [1, 1, 1, 1, 1] = 1.0 ∧ avgQ [2, 1, 1, 1, 1] = 1.2 ∧
      CongestionDetector.get_state ⟨5, [1, 1, 1, 1, 1], [2, 1, 1, 1, 1]⟩ =
        "HIGH_CONGESTION") := by
  refine ⟨?_, ?_,
    ⟨by norm_num [avgQ],
     by norm_num [CongestionDetector.get_state, avgQ]; intro h; simp at h⟩,
    ⟨by norm_num [avgQ], by norm_num [avgQ],
     by norm_num [CongestionDetector.get_state, avgQ]; intro h; simp at h⟩⟩
  · intro h
    simp only [CongestionDetector.get_state, if_pos h]
  · intro hd hs
    have hne : ¬(det.density_hist = [] ∨ det.speed_hist = []) := by tauto
    refine ⟨?_, ?_, ?_, ?_, ?_⟩
    · intro h1
      simp only [CongestionDetector.get_state, if_neg hne, if_pos h1]
    · intro hn1 h2a h2b
      simp only [CongestionDetector.get_state, if_neg hne, if_neg hn1,
        if_pos (And.intro h2a h2b)]
    · intro hn1 hn2 h3a h3b
      simp only [CongestionDetector.get_state, if_neg hne, if_neg hn1,
        if_neg hn2, if_pos (And.intro h3a h3b)]
    · intro hn1 hn2 hn3 h4
      simp only [CongestionDetector.get_state, if_neg hne, if_neg hn1,
        if_neg hn2, if_neg hn3, if_pos h4]
    · intro hn1 hn2 hn3 hn4
      simp only [CongestionDetector.get_state, if_neg hne, if_neg hn1,
        if_neg hn2, if_neg hn3, if_neg hn4]

/-- C1 witness: the theorem instantiated at the two concrete detectors of the
precedence examples and at an empty detector. -/
theorem c1_get_state_rules_witness :
    CongestionDetector.get_state ⟨15, [], []⟩ = "UNKNOWN" ∧
    CongestionDetector.get_state ⟨5, [2, 2, 2, 1, 1], [2, 2, 2, 1, 1]⟩ =
      "SEVERE_CONGESTION" ∧
    CongestionDetector.get_state ⟨5, [1, 1, 1, 1, 1], [2, 1, 1, 1, 1]⟩ =
      "HIGH_CONGESTION" :=
  ⟨(c1_get_state_rules ⟨15, [], []⟩).1 (Or.inl rfl),
   (c1_get_state_rules ⟨5, [2, 2, 2, 1, 1], [2, 2, 2, 1, 1]⟩).2.2.1.2,
   (c1_get_state_rules ⟨5, [1, 1, 1, 1, 1], [2, 1, 1, 1, 1]⟩).2.2.2.2.2⟩

lemma lastN_append (n : ℕ) (l : List ℕ) (x : ℕ) :
    lastN n (lastN n l ++ [x]) = lastN n (l ++ [x]) := by
  simp only [lastN, List.length_append, List.length_drop, List.length_cons,
    List.length_nil, Nat.zero_add]
  rcases le_or_lt n l.length with h | h
  · rcases Nat.eq_zero_or_pos n with h0 | h0
    · subst h0
      simp only [Nat.sub_zero]
      rw [List.drop_eq_nil_of_le (by simp), List.drop_eq_nil_of_le (by simp)]
    · have e1 : l.length - (l.length - n) + 1 - n = 1 := by omega
      rw [e1, List.drop_append_of_le_length (by simp; omega),
        List.drop_append_of_le_length (by omega), List.drop_drop]
      congr 2
      omega
  · have e0 : l.length - n = 0 := by omega
    rw [e0]
    simp only [List.drop_zero, Nat.sub_zero]

lemma dequeAppend_eq_lastN (w : ℕ) (d : List ℕ) (x : ℕ) :
    dequeAppend w d x = lastN w (d ++ [x]) := by
  simp [dequeAppend, lastN]

lemma update_valid_eq (det : CongestionDetector) (d s : String)
    (dc sc : ℕ) (hdc : DENSITY_SCORE.lookup d = some dc)
    (hsc : SPEED_SCORE.lookup s = some sc) :
    det.update d s =
      ⟨det.window_size,
       dequeAppend det.window_size det.density_hist dc,
       dequeAppend det.window_size det.speed_hist sc⟩ := by
  simp [CongestionDetector.update, hdc, hsc]

lemma foldl_update_lastN (w : ℕ) (inputs : List (String × String)) :
    ∀ dl sl : List ℕ, (∀ p ∈ inputs, validInput p) →
      inputs.foldl (fun (det : CongestionDetector) p => det.update p.1 p.2) ⟨w, lastN w dl, lastN w sl⟩ =
        ⟨w, lastN w (dl ++ inputs.map (fun p => densityCode p.1)),
         lastN w (sl ++ inputs.map (fun p => speedCode p.2))⟩ := by
  induction inputs with
  | nil => intro dl sl _; simp
  | cons p rest ih =>
    intro dl sl hv
    have hp : validInput p := hv p (List.mem_cons_self p rest)
    obtain ⟨dc, hdc⟩ := Option.isSome_iff_exists.mp hp.1
    obtain ⟨sc, hsc⟩ := Option.isSome_iff_exists.mp hp.2
    have hstep : (CongestionDetector.update ⟨w, lastN w dl, lastN w sl⟩ p.1 p.2) =
        (⟨w, lastN w (dl ++ [dc]), lastN w (sl ++ [sc])⟩ : CongestionDetector) := by
      rw [update_valid_eq _ _ _ dc sc hdc hsc]
      simp [dequeAppend_eq_lastN, lastN_append]
    have hdcode : densityCode p.1 = dc := by simp [densityCode, hdc]
    have hscode : speedCode p.2 = sc := by simp [speedCode, hsc]
    simp only [List.foldl_cons, hstep, List.map_cons]
    rw [ih (dl ++ [dc]) (sl ++ [sc]) (fun q hq => hv q (List.mem_cons_of_mem p hq))]
    simp [hdcode, hscode]

lemma runDetector_valid (w : ℕ) (inputs : List (String × String))
    (hv : ∀ p ∈ inputs, validInput p) :
    runDetector w inputs =
      ⟨w, lastN w (inputs.map (fun p => densityCode p.1)),
       lastN w (inputs.map (fun p => speedCode p.2))⟩ := by
  have h0 : (CongestionDetector.init w) = ⟨w, lastN w [], lastN w []⟩ := by
    simp [CongestionDetector.init, lastN]
  rw [runDetector, h0]
  simpa using foldl_update_lastN w inputs [] [] hv

lemma lastN_length_le (n : ℕ) (l : List ℕ) : (lastN n l).length ≤ n := by
  simp [lastN]
  omega

/-- C4: for a detector with window size N fed N + k valid updates (k > 0),
each buffer never exceeds length N at any point (any prefix of the run), and
after the whole sequence each buffer holds exactly the numeric encodings of
the most recent N inputs, the k oldest having been evicted. -/
theorem c4_window_eviction (N k : ℕ) (inputs : List (String × String))
    (hv : ∀ p ∈ inputs, validInput p)
    (hlen : inputs.length = N + k) (hk : 0 < k) :
    (∀ pre, pre <+: inputs →
      (runDetector N pre).density_hist.length ≤ N ∧
      (runDetector N pre).speed_hist.length ≤ N) ∧
    (runDetector N inputs).density_hist =
      (inputs.map (fun p => densityCode p.1)).drop k ∧
    (runDetector N inputs).speed_hist =
      (inputs.map (fun p => speedCode p.2)).drop k ∧
    (runDetector N inputs).density_hist.length = N ∧
    (runDetector N inputs).speed_hist.length = N := by
  have hfull := runDetector_valid N inputs hv
  have hdrop : ∀ f : String × String → ℕ,
      lastN N (inputs.map f) = (inputs.map f).drop k := by
    intro f
    simp [lastN, List.length_map, hlen]
  refine ⟨?_, ?_, ?_, ?_, ?_⟩
  · intro pre hpre
    have hvp : ∀ p ∈ pre, validInput p :=
      fun p hp => hv p (hpre.subset hp)
    rw [runDetector_valid N pre hvp]
    exact ⟨lastN_length_le _ _, lastN_length_le _ _⟩
  · rw [hfull]; exact hdrop _
  · rw [hfull]; exact hdrop _
  · rw [hfull]
    simp [lastN, List.length_map, hlen]
  · rw [hfull]
    simp [lastN, List.length_map, hlen]

/-- C4 witness: window size 2, three valid updates; the buffers hold the
codes of the last two inputs. -/
theorem c4_witness :
    (runDetector 2 [("LOW", "HIGH"), ("MEDIUM", "LOW"), ("HIGH", "MEDIUM")]).density_hist
        = [1, 2] ∧
    (runDetector 2 [("LOW", "HIGH"), ("MEDIUM", "LOW"), ("HIGH", "MEDIUM")]).speed_hist
        = [2, 1] := by
  have h := c4_window_eviction 2 1
    [("LOW", "HIGH"), ("MEDIUM", "LOW"), ("HIGH", "MEDIUM")]
    (by decide) (by decide) (by decide)
  exact ⟨h.2.1.trans (by decide), h.2.2.1.trans (by decide)⟩

/-- C5: an update whose density level is outside LOW/MEDIUM/HIGH or whose
speed level is outside HIGH/MEDIUM/LOW leaves both buffers exactly unchanged
(atomic no-op, no error); when both are in their enumerations, update appends
the density code (LOW=0, MEDIUM=1, HIGH=2) and the speed code (HIGH=0,
MEDIUM=1, LOW=2) to the respective ring buffers. -/
theorem c5_update_validation (det : CongestionDetector) (d s : String) :
    ((DENSITY_SCORE.lookup d = none ∨ SPEED_SCORE.lookup s = none) →
      det.update d s = det) ∧
    (∀ dc sc, DENSITY_SCORE.lookup d = some dc →
      SPEED_SCORE.lookup s = some sc →
      det.update d s =
        ⟨det.window_size,
         dequeAppend det.window_size det.density_hist dc,
         dequeAppend det.window_size det.speed_hist sc⟩) ∧
    (∀ t : String, DENSITY_SCORE.lookup t = none ↔
      t ≠ "LOW" ∧ t ≠ "MEDIUM" ∧ t ≠ "HIGH") ∧
    (∀ t : String, SPEED_SCORE.lookup t = none ↔
      t ≠ "HIGH" ∧ t ≠ "MEDIUM" ∧ t ≠ "LOW") ∧
    DENSITY_SCORE.lookup "LOW" = some 0 ∧
    DENSITY_SCORE.lookup "MEDIUM" = some 1 ∧
    DENSITY_SCORE.lookup "HIGH" = some 2 ∧
    SPEED_SCORE.lookup "HIGH" = some 0 ∧
    SPEED_SCORE.lookup "MEDIUM" = some 1 ∧
    SPEED_SCORE.lookup "LOW" = some 2 := by
  refine ⟨?_, ?_, ?_, ?_, by decide, by decide, by decide, by decide,
    by decide, by decide⟩
  · intro h
    rcases h with h | h
    · simp [CongestionDetector.update, h]
    · rcases hd : DENSITY_SCORE.lookup d with _ | dc <;>
        simp [CongestionDetector.update, hd, h]
  · intro dc sc hdc hsc
    exact update_valid_eq det d s dc sc hdc hsc
  · intro t
    by_cases h1 : t = "LOW" <;> by_cases h2 : t = "MEDIUM" <;>
      by_cases h3 : t = "HIGH" <;>
      [skip; skip; skip; skip; skip; skip; skip;
       · have b1 : (t == "LOW") = false := beq_eq_false_iff_ne.mpr h1
         have b2 : (t == "MEDIUM") = false := beq_eq_false_iff_ne.mpr h2
         have b3 : (t == "HIGH") = false := beq_eq_false_iff_ne.mpr h3
         simp [DENSITY_SCORE, List.lookup, b1, b2, b3, h1, h2, h3]] <;>
      simp_all [DENSITY_SCORE, List.lookup]
  · intro t
    by_cases h1 : t = "HIGH" <;> by_cases h2 : t = "MEDIUM" <;>
      by_cases h3 : t = "LOW" <;>
      [skip; skip; skip; skip; skip; skip; skip;
       · have b1 : (t == "HIGH") = false := beq_eq_false_iff_ne.mpr h1
         have b2 : (t == "MEDIUM") = false := beq_eq_false_iff_ne.mpr h2
         have b3 : (t == "LOW") = false := beq_eq_false_iff_ne.mpr h3
         simp [SPEED_SCORE, List.lookup, b1, b2, b3, h1, h2, h3]] <;>
      simp_all [SPEED_SCORE, List.lookup]

/-- C5 witness: a bogus density level is a no-op; a valid pair appends the
two codes. -/
theorem c5_witness :
    CongestionDetector.update ⟨3, [0], [1]⟩ "BOGUS" "LOW" =
        (⟨3, [0], [1]⟩ : CongestionDetector) ∧
    CongestionDetector.update ⟨3, [0], [1]⟩ "HIGH" "LOW" =
        (⟨3, [0, 2], [1, 2]⟩ : CongestionDetector) := by
  have h1 := (c5_update_validation ⟨3, [0], [1]⟩ "BOGUS" "LOW").1
  have h2 := (c5_update_validation ⟨3, [0], [1]⟩ "HIGH" "LOW").2.1
  exact ⟨h1 (Or.inl (by decide)),
    (h2 2 2 (by decide) (by decide)).trans (by decide)⟩

/-- C10: from the freshly constructed state, after any sequence of update
calls with arbitrary (valid or invalid) inputs the density buffer and the
speed buffer have equal length, so the two averages in get_state are taken
over the same number of frames. -/
theorem c10_paired_buffers (w : ℕ) (inputs : List (String × String)) :
    (runDetector w inputs).density_hist.length =
      (runDetector w inputs).speed_hist.length := by
  suffices h : ∀ det : CongestionDetector,
      det.density_hist.length = det.speed_hist.length →
      (inputs.foldl (fun (det : CongestionDetector) p => det.update p.1 p.2)
        det).density_hist.length =
      (inputs.foldl (fun (det : CongestionDetector) p => det.update p.1 p.2)
        det).speed_hist.length by
    exact h (CongestionDetector.init w) rfl
  induction inputs with
  | nil => intro det h; exact h
  | cons p rest ih =>
    intro det h
    refine ih _ ?_
    rcases hd : DENSITY_SCORE.lookup p.1 with _ | dc
    · simpa [CongestionDetector.update, hd] using h
    rcases hs : SPEED_SCORE.lookup p.2 with _ | sc
    · simpa [CongestionDetector.update, hd, hs] using h
    simp [CongestionDetector.update, hd, hs, dequeAppend, h]


lemma foldl_occupancy (weights : List (String × ℚ)) (objs : List TrackedObject)
    (poly : List (ℤ × ℤ)) :
    ∀ a : ℚ, objs.foldl
      (fun acc o =>
        if 0 ≤ pointPolygonTest poly (centroidInt o.bbox) then
          acc + weightContrib weights o
        else acc) a =
      a + ((objs.filter (fun o => point_in_polygon (centroidInt o.bbox) poly)).map
        (weightContrib weights)).sum := by
  induction objs with
  | nil => intro a; simp
  | cons o rest ih =>
    intro a
    by_cases h : 0 ≤ pointPolygonTest poly (centroidInt o.bbox)
    · have hb : point_in_polygon (centroidInt o.bbox) poly = true := by
        simp [point_in_polygon, h]
      simp only [List.foldl_cons, if_pos h]
      rw [ih]
      simp [List.filter_cons, hb]
      ring
    · have hb : point_in_polygon (centroidInt o.bbox) poly = false := by
        simp [point_in_polygon, h]
      simp only [List.foldl_cons, if_neg h]
      rw [ih]
      simp [List.filter_cons, hb]

lemma densityLevelOf_cases (x : ℚ) :
    (x < 0.4 → densityLevelOf x = "LOW") ∧
    (0.4 ≤ x → x < 0.7 → densityLevelOf x = "MEDIUM") ∧
    (0.7 ≤ x → densityLevelOf x = "HIGH") := by
  refine ⟨?_, ?_, ?_⟩ <;> intros <;> simp only [densityLevelOf] <;>
    split_ifs <;> first | rfl | linarith

/-- C2: `compute_density_polygon` returns occupancy equal to the sum of the
per-class weights of the objects whose centroid passes the non-negative
polygon test (classes absent from the weight table contribute zero),
ratio = occupancy / road_capacity when road_capacity > 0 and 0 when
road_capacity ≤ 0, and classifies LOW below 0.4, MEDIUM in [0.4, 0.7),
HIGH at 0.7 and above, boundary values routed to the higher bucket. -/
theorem c2_density_polygon (weights : List (String × ℚ))
    (objs : List TrackedObject) (poly : List (ℤ × ℤ)) (cap : ℚ) :
    (compute_density_polygon weights objs poly cap).occupancy =
      ((objs.filter (fun o => point_in_polygon (centroidInt o.bbox) poly)).map
        (weightContrib weights)).sum ∧
    (∀ o : TrackedObject, (weights.lookup (strLower o.cls)) = none →
      weightContrib weights o = 0) ∧
    (0 < cap → (compute_density_polygon weights objs poly cap).ratioVal =
      (compute_density_polygon weights objs poly cap).occupancy / cap) ∧
    (cap ≤ 0 → (compute_density_polygon weights objs poly cap).ratioVal = 0) ∧
    ((compute_density_polygon weights objs poly cap).ratioVal < 0.4 →
      (compute_density_polygon weights objs poly cap).density_level = "LOW") ∧
    (0.4 ≤ (compute_density_polygon weights objs poly cap).ratioVal →
      (compute_density_polygon weights objs poly cap).ratioVal < 0.7 →
      (compute_density_polygon weights objs poly cap).density_level = "MEDIUM") ∧
    (0.7 ≤ (compute_density_polygon weights objs poly cap).ratioVal →
      (compute_density_polygon weights objs poly cap).density_level = "HIGH") := by
  have hlvl : (compute_density_polygon weights objs poly cap).density_level =
      densityLevelOf (compute_density_polygon weights objs poly cap).ratioVal := by
    simp only [compute_density_polygon]
  refine ⟨?_, ?_, ?_, ?_, ?_, ?_, ?_⟩
  · simp only [compute_density_polygon]
    simpa using foldl_occupancy weights objs poly 0
  · intro o h
    simp [weightContrib, h]
  · intro h
    simp only [compute_density_polygon, if_pos h]
  · intro h
    simp only [compute_density_polygon, if_neg (not_lt.mpr h)]
  · intro h
    rw [hlvl]
    exact (densityLevelOf_cases _).1 h
  · intro h1 h2
    rw [hlvl]
    exact (densityLevelOf_cases _).2.1 h1 h2
  · intro h
    rw [hlvl]
    exact (densityLevelOf_cases _).2.2 h

/-- C2 witness: one car of weight 1 with centroid inside the square lane,
road capacity 2: occupancy 1, ratio 1/2, MEDIUM. -/
theorem c2_witness :
    (0 : ℚ) < 2 ∧
    (compute_density_polygon [("car", 1)] [⟨1, ⟨1, 1, 11, 11⟩, "Car"⟩]
      [(1, 1), (11, 1), (11, 11), (1, 11)] 2).occupancy = 1 ∧
    (compute_density_polygon [("car", 1)] [⟨1, ⟨1, 1, 11, 11⟩, "Car"⟩]
      [(1, 1), (11, 1), (11, 11), (1, 11)] 2).ratioVal = 1 / 2 ∧
    (compute_density_polygon [("car", 1)] [⟨1, ⟨1, 1, 11, 11⟩, "Car"⟩]
      [(1, 1), (11, 1), (11, 11), (1, 11)] 2).density_level = "MEDIUM" := by
  have h := c2_density_polygon [("car", 1)] [⟨1, ⟨1, 1, 11, 11⟩, "Car"⟩]
    [(1, 1), (11, 1), (11, 11), (1, 11)] 2
  have hin : point_in_polygon (centroidInt ⟨1, 1, 11, 11⟩)
      [(1, 1), (11, 1), (11, 11), (1, 11)] = true := by decide
  have hw : weightContrib [("car", 1)] ⟨1, ⟨1, 1, 11, 11⟩, "Car"⟩ = 1 := by
    decide
  have hocc : (compute_density_polygon [("car", 1)]
      [⟨1, ⟨1, 1, 11, 11⟩, "Car"⟩]
      [(1, 1), (11, 1), (11, 11), (1, 11)] 2).occupancy = 1 := by
    rw [h.1, List.filter_cons, if_pos hin]
    simp [hw]
  have hr : (compute_density_polygon [("car", 1)]
      [⟨1, ⟨1, 1, 11, 11⟩, "Car"⟩]
      [(1, 1), (11, 1), (11, 11), (1, 11)] 2).ratioVal = 1 / 2 := by
    rw [h.2.2.1 (by norm_num), hocc]
  refine ⟨by norm_num, hocc, hr, h.2.2.2.2.2.1 ?_ ?_⟩
  · rw [hr]
    norm_num
  · rw [hr]
    norm_num

lemma laneAssign_eq_filter (objs : List TrackedObject)
    (p1 p2 : List (ℤ × ℤ)) :
    laneAssign objs p1 p2 =
      (objs.filter (fun o => point_in_polygon (centroidInt o.bbox) p1),
       objs.filter (fun o => !point_in_polygon (centroidInt o.bbox) p1 &&
         point_in_polygon (centroidInt o.bbox) p2)) := by
  induction objs with
  | nil => rfl
  | cons o rest ih =>
    simp only [laneAssign, ih]
    by_cases h1 : point_in_polygon (centroidInt o.bbox) p1 = true
    · simp [List.filter_cons, h1]
    · rw [Bool.not_eq_true] at h1
      by_cases h2 : point_in_polygon (centroidInt o.bbox) p2 = true
      · simp [List.filter_cons, h1, h2]
      · rw [Bool.not_eq_true] at h2
        simp [List.filter_cons, h1, h2]

/-- C6: the orchestrator's lane-assignment loop places each object in at
most one lane: membership in lane 1 holds exactly when the centroid passes
the lane-1 polygon test, membership in lane 2 exactly when it fails lane 1
and passes lane 2, never both; an object inside neither polygon is in
neither lane list. -/
theorem c6_lane_exclusive (objs : List TrackedObject)
    (p1 p2 : List (ℤ × ℤ)) :
    (∀ o, o ∈ (laneAssign objs p1 p2).1 ↔
      o ∈ objs ∧ point_in_polygon (centroidInt o.bbox) p1 = true) ∧
    (∀ o, o ∈ (laneAssign objs p1 p2).2 ↔
      o ∈ objs ∧ point_in_polygon (centroidInt o.bbox) p1 = false ∧
        point_in_polygon (centroidInt o.bbox) p2 = true) ∧
    (∀ o, ¬(o ∈ (laneAssign objs p1 p2).1 ∧ o ∈ (laneAssign objs p1 p2).2)) ∧
    (∀ o, point_in_polygon (centroidInt o.bbox) p1 = false →
      point_in_polygon (centroidInt o.bbox) p2 = false →
      o ∉ (laneAssign objs p1 p2).1 ∧ o ∉ (laneAssign objs p1 p2).2) := by
  rw [laneAssign_eq_filter]
  refine ⟨?_, ?_, ?_, ?_⟩
  · intro o
    simp [List.mem_filter]
  · intro o
    simp [List.mem_filter]
  · intro o hc
    rcases hc with ⟨h1, h2⟩
    rw [List.mem_filter] at h1 h2
    rcases h2 with ⟨_, h2⟩
    rw [Bool.and_eq_true, Bool.not_eq_true'] at h2
    rw [h2.1] at h1
    exact Bool.false_ne_true h1.2
  · intro o h1 h2
    constructor
    · intro hm
      rw [List.mem_filter, h1] at hm
      exact Bool.false_ne_true hm.2
    · intro hm
      rw [List.mem_filter, h2] at hm
      rcases hm with ⟨_, hm⟩
      rw [Bool.and_eq_true] at hm
      exact Bool.false_ne_true hm.2

/-- C6 witness: identical (fully overlapping) lane polygons; an object whose
centroid is inside both is assigned to lane 1 only. -/
theorem c6_witness :
    (⟨7, ⟨1, 1, 11, 11⟩, "car"⟩ : TrackedObject) ∈
      (laneAssign [⟨7, ⟨1, 1, 11, 11⟩, "car"⟩]
        [(1, 1), (11, 1), (11, 11), (1, 11)]
        [(1, 1), (11, 1), (11, 11), (1, 11)]).1 ∧
    (⟨7, ⟨1, 1, 11, 11⟩, "car"⟩ : TrackedObject) ∉
      (laneAssign [⟨7, ⟨1, 1, 11, 11⟩, "car"⟩]
        [(1, 1), (11, 1), (11, 11), (1, 11)]
        [(1, 1), (11, 1), (11, 11), (1, 11)]).2 := by
  have h := c6_lane_exclusive [⟨7, ⟨1, 1, 11, 11⟩, "car"⟩]
    [(1, 1), (11, 1), (11, 11), (1, 11)]
    [(1, 1), (11, 1), (11, 11), (1, 11)]
  have h1 : (⟨7, ⟨1, 1, 11, 11⟩, "car"⟩ : TrackedObject) ∈
      (laneAssign [⟨7, ⟨1, 1, 11, 11⟩, "car"⟩]
        [(1, 1), (11, 1), (11, 11), (1, 11)]
        [(1, 1), (11, 1), (11, 11), (1, 11)]).1 :=
    (h.1 _).mpr ⟨List.mem_singleton.mpr rfl, by decide⟩
  exact ⟨h1, fun hc => h.2.2.1 _ ⟨h1, hc⟩⟩

/-- C7 counterexample: for bounding box [0, 0, 1, 1] the exact midpoint is
(1/2, 1/2), but the centroid used by density.py and runner_tc.py is the
floor-divided (0, 0); the claim that the centroid equals the exact midpoint
fails at this input. -/
theorem c7_counterexample :
    ¬ (((centroidInt ⟨0, 0, 1, 1⟩).1 : ℚ) = ((0 : ℚ) + 1) / 2 ∧
       ((centroidInt ⟨0, 0, 1, 1⟩).2 : ℚ) = ((0 : ℚ) + 1) / 2) := by
  intro h
  have h1 := h.1
  norm_num [centroidInt] at h1

/-- C7 amended: the centroid used for lane membership and density is the
floored midpoint `((x1+x2)//2, (y1+y2)//2)`, i.e. the floor of the exact
midpoint in each coordinate; it equals the exact midpoint when the
coordinate sum is even, and falls short of the exact half-integer midpoint
by exactly 1/2 when the sum is odd. -/
theorem c7_centroid_floor (b : BBox) :
    (centroidInt b).1 = ⌊((b.x1 : ℚ) + (b.x2 : ℚ)) / 2⌋ ∧
    (centroidInt b).2 = ⌊((b.y1 : ℚ) + (b.y2 : ℚ)) / 2⌋ ∧
    (Even (b.x1 + b.x2) →
      ((centroidInt b).1 : ℚ) = ((b.x1 : ℚ) + (b.x2 : ℚ)) / 2) ∧
    (¬Even (b.x1 + b.x2) →
      ((centroidInt b).1 : ℚ) = ((b.x1 : ℚ) + (b.x2 : ℚ)) / 2 - 1 / 2) ∧
    (Even (b.y1 + b.y2) →
      ((centroidInt b).2 : ℚ) = ((b.y1 : ℚ) + (b.y2 : ℚ)) / 2) ∧
    (¬Even (b.y1 + b.y2) →
      ((centroidInt b).2 : ℚ) = ((b.y1 : ℚ) + (b.y2 : ℚ)) / 2 - 1 / 2) := by
  have hfl : ∀ n : ℤ, ⌊((n : ℚ)) / 2⌋ = n / 2 := by
    intro n
    have := Rat.floor_intCast_div_natCast n 2
    simpa using this
  have hx : (centroidInt b).1 = (b.x1 + b.x2) / 2 := rfl
  have hy : (centroidInt b).2 = (b.y1 + b.y2) / 2 := rfl
  have heven : ∀ n : ℤ, Even n → ((n / 2 : ℤ) : ℚ) = (n : ℚ) / 2 := by
    intro n hn
    obtain ⟨m, hm⟩ := hn
    subst hm
    have h2 : (m + m) / 2 = m := by omega
    rw [h2]
    push_cast
    ring
  have hodd : ∀ n : ℤ, ¬Even n → ((n / 2 : ℤ) : ℚ) = (n : ℚ) / 2 - 1 / 2 := by
    intro n hn
    rw [Int.not_even_iff_odd] at hn
    obtain ⟨m, hm⟩ := hn
    subst hm
    have h2 : (2 * m + 1) / 2 = m := by omega
    rw [h2]
    push_cast
    ring
  refine ⟨?_, ?_, ?_, ?_, ?_, ?_⟩
  · rw [hx,
      show ((b.x1 : ℚ) + (b.x2 : ℚ)) = ((b.x1 + b.x2 : ℤ) : ℚ) from by
        push_cast; ring,
      hfl (b.x1 + b.x2)]
  · rw [hy,
      show ((b.y1 : ℚ) + (b.y2 : ℚ)) = ((b.y1 + b.y2 : ℤ) : ℚ) from by
        push_cast; ring,
      hfl (b.y1 + b.y2)]
  · intro h
    rw [hx, heven _ h]
    push_cast
    ring
  · intro h
    rw [hx, hodd _ h]
    push_cast
    ring
  · intro h
    rw [hy, heven _ h]
    push_cast
    ring
  · intro h
    rw [hy, hodd _ h]
    push_cast
    ring

/-- C7 witness: at bounding box [0, 0, 1, 1] the x-sum is odd and the
centroid's x-coordinate is the exact midpoint 1/2 minus 1/2, i.e. 0. -/
theorem c7_witness :
    ¬Even ((0 : ℤ) + 1) ∧
    ((centroidInt ⟨0, 0, 1, 1⟩).1 : ℚ) = ((0 : ℚ) + 1) / 2 - 1 / 2 := by
  refine ⟨by decide, ?_⟩
  have h := (c7_centroid_floor ⟨0, 0, 1, 1⟩).2.2.2.1 (by decide)
  simpa using h

/-- C9: `point_in_polygon` returns true exactly when the point-in-polygon
test result is non-negative, i.e. for points strictly inside (odd crossing
number) or exactly on the boundary (test result 0); it returns false only
for points strictly outside; and `compute_density_polygon` uses the same
non-negative test, so an object whose centroid lies on the lane boundary is
counted in that lane's occupancy. -/
theorem c9_boundary_counts (p : ℤ × ℤ) (poly : List (ℤ × ℤ))
    (h3 : 3 ≤ poly.length) :
    (point_in_polygon p poly = true ↔ 0 ≤ pointPolygonTest poly p) ∧
    (onBoundary poly p → pointPolygonTest poly p = 0) ∧
    (¬onBoundary poly p → crossNum poly p % 2 = 1 →
      pointPolygonTest poly p = 1) ∧
    (onBoundary poly p → point_in_polygon p poly = true) ∧
    (¬onBoundary poly p → crossNum poly p % 2 = 1 →
      point_in_polygon p poly = true) ∧
    (point_in_polygon p poly = false →
      ¬onBoundary poly p ∧ pointPolygonTest poly p = -1) ∧
    (∀ (weights : List (String × ℚ)) (o : TrackedObject) (cap : ℚ),
      onBoundary poly (centroidInt o.bbox) →
      (compute_density_polygon weights [o] poly cap).occupancy =
        weightContrib weights o) := by
  have hiff : point_in_polygon p poly = true ↔ 0 ≤ pointPolygonTest poly p := by
    simp [point_in_polygon]
  have hb : onBoundary poly p → pointPolygonTest poly p = 0 := by
    intro h
    simp [pointPolygonTest, h]
  have hin : ¬onBoundary poly p → crossNum poly p % 2 = 1 →
      pointPolygonTest poly p = 1 := by
    intro h hc
    simp [pointPolygonTest, h, hc]
  refine ⟨hiff, hb, hin, ?_, ?_, ?_, ?_⟩
  · intro h
    rw [hiff, hb h]
  · intro h hc
    rw [hiff, hin h hc]
    norm_num
  · intro h
    have hn : ¬(0 ≤ pointPolygonTest poly p) := by
      rw [← hiff]
      simp [h]
    have hob : ¬onBoundary poly p := by
      intro hob
      exact hn (by rw [hb hob])
    refine ⟨hob, ?_⟩
    by_cases hcr : crossNum poly p % 2 = 1
    · exact absurd (by rw [hin hob hcr]; norm_num) hn
    · simp [pointPolygonTest, hob, hcr]
  · intro weights o cap h
    have ht : pointPolygonTest poly (centroidInt o.bbox) = 0 := by
      simp [pointPolygonTest, h]
    simp only [compute_density_polygon, List.foldl_cons, List.foldl_nil, ht]
    norm_num

/-- C9 witness: the point (6, 1) lies on the bottom edge of the square lane
polygon and is classified inside; an object with that centroid is counted
with its full weight. -/
theorem c9_witness :
    3 ≤ ([(1, 1), (11, 1), (11, 11), (1, 11)] : List (ℤ × ℤ)).length ∧
    point_in_polygon (6, 1) [(1, 1), (11, 1), (11, 11), (1, 11)] = true ∧
    (compute_density_polygon [("car", 1)] [⟨1, ⟨1, 1, 11, 1⟩, "car"⟩]
      [(1, 1), (11, 1), (11, 11), (1, 11)] 20).occupancy =
      weightContrib [("car", 1)] ⟨1, ⟨1, 1, 11, 1⟩, "car"⟩ := by
  have h := c9_boundary_counts (6, 1) [(1, 1), (11, 1), (11, 11), (1, 11)]
    (by decide)
  refine ⟨by decide, h.2.2.2.1 (by decide), ?_⟩
  exact h.2.2.2.2.2.2 [("car", 1)] ⟨1, ⟨1, 1, 11, 1⟩, "car"⟩ 20 (by decide)

lemma foldl_speed (fps : ℝ) (th : List (ℕ × List (ℤ × ℤ))) :
    ∀ (t : ℝ) (c : ℕ), th.foldl
      (fun (acc : ℝ × ℕ) kv =>
        if kv.2.length < 2 then acc
        else (acc.1 + trackRate kv.2 fps, acc.2 + 1)) (t, c) =
      (t + ((th.filter (fun kv => 2 ≤ kv.2.length)).map
          (fun kv => trackRate kv.2 fps)).sum,
       c + (th.filter (fun kv => 2 ≤ kv.2.length)).length) := by
  induction th with
  | nil => intro t c; simp
  | cons kv rest ih =>
    intro t c
    by_cases h : kv.2.length < 2
    · have hf : decide (2 ≤ kv.2.length) = false := by
        simp
        omega
      simp only [List.foldl_cons, if_pos h]
      rw [ih]
      simp [List.filter_cons, hf]
    · have hf : decide (2 ≤ kv.2.length) = true := by
        simp
        omega
      simp only [List.foldl_cons, if_neg h]
      rw [ih]
      simp [List.filter_cons, hf]
      constructor
      · ring
      · omega

open Classical in
lemma speedLevelOf_cases (x : ℝ) :
    (x < 10 → speedLevelOf x = "LOW") ∧
    (10 ≤ x → x < 20 → speedLevelOf x = "MEDIUM") ∧
    (20 ≤ x → speedLevelOf x = "HIGH") := by
  refine ⟨?_, ?_, ?_⟩ <;> intros <;> simp only [speedLevelOf] <;>
    split_ifs <;> first | rfl | linarith

/-- C3: `compute_average_speed` averages, over the tracks having at least
two recorded positions, the Euclidean pixel distance between the last two
positions times fps; tracks with fewer than two positions do not enter the
denominator; with no qualifying track the average is 0. The speed level is
LOW below 10, MEDIUM in [10, 20), HIGH at 20 and above, so exactly 10 gives
MEDIUM and exactly 20 gives HIGH. -/
theorem c3_average_speed (th : List (ℕ × List (ℤ × ℤ))) (fps : ℝ) :
    (th.filter (fun kv => 2 ≤ kv.2.length) = [] →
      (compute_average_speed th fps).avg_speed = 0) ∧
    (th.filter (fun kv => 2 ≤ kv.2.length) ≠ [] →
      (compute_average_speed th fps).avg_speed =
        ((th.filter (fun kv => 2 ≤ kv.2.length)).map
          (fun kv => trackRate kv.2 fps)).sum /
        ((th.filter (fun kv => 2 ≤ kv.2.length)).length : ℝ)) ∧
    (compute_average_speed th fps).speed_level =
      speedLevelOf (compute_average_speed th fps).avg_speed ∧
    ((compute_average_speed th fps).avg_speed < 10 →
      (compute_average_speed th fps).speed_level = "LOW") ∧
    (10 ≤ (compute_average_speed th fps).avg_speed →
      (compute_average_speed th fps).avg_speed < 20 →
      (compute_average_speed th fps).speed_level = "MEDIUM") ∧
    (20 ≤ (compute_average_speed th fps).avg_speed →
      (compute_average_speed th fps).speed_level = "HIGH") := by
  have havg : (compute_average_speed th fps).avg_speed =
      if 0 < (th.filter (fun kv => 2 ≤ kv.2.length)).length then
        ((th.filter (fun kv => 2 ≤ kv.2.length)).map
          (fun kv => trackRate kv.2 fps)).sum /
        ((th.filter (fun kv => 2 ≤ kv.2.length)).length : ℝ)
      else 0 := by
    simp only [compute_average_speed, foldl_speed fps th 0 0, Nat.zero_add,
      zero_add]
  have hlvl : (compute_average_speed th fps).speed_level =
      speedLevelOf (compute_average_speed th fps).avg_speed := by
    simp only [compute_average_speed, foldl_speed fps th 0 0]
  refine ⟨?_, ?_, hlvl, ?_, ?_, ?_⟩
  · intro h
    rw [havg, h]
    simp
  · intro h
    rw [havg, if_pos (List.length_pos.mpr h)]
  · intro h
    rw [hlvl]
    exact (speedLevelOf_cases _).1 h
  · intro h1 h2
    rw [hlvl]
    exact (speedLevelOf_cases _).2.1 h1 h2
  · intro h
    rw [hlvl]
    exact (speedLevelOf_cases _).2.2 h

/-- C3 witness: one track with two identical positions at fps 10: the only
qualifying track has rate 0, so the average is 0 and the level is LOW. -/
theorem c3_witness :
    (compute_average_speed [(1, [(1, 1), (1, 1)])] 10).avg_speed = 0 ∧
    (compute_average_speed [(1, [(1, 1), (1, 1)])] 10).speed_level = "LOW" := by
  have h := c3_average_speed [(1, [(1, 1), (1, 1)])] 10
  have hne : ([(1, [(1, 1), (1, 1)])] : List (ℕ × List (ℤ × ℤ))).filter
      (fun kv => 2 ≤ kv.2.length) ≠ [] := by decide
  have havg : (compute_average_speed [(1, [(1, 1), (1, 1)])] 10).avg_speed
      = 0 := by
    rw [h.2.1 hne]
    norm_num [List.filter, trackRate, distSq]
  exact ⟨havg, h.2.2.2.1 (by rw [havg]; norm_num)⟩

lemma laneTracks_go (hist : List (ℕ × List (ℤ × ℤ))) :
    ∀ (objs : List TrackedObject) (acc : List (ℕ × List (ℤ × ℤ))),
      (objs.map TrackedObject.id).Nodup →
      (∀ o ∈ objs, ∀ kv ∈ acc, kv.1 ≠ o.id) →
      objs.foldl
        (fun d o =>
          match hist.lookup o.id with
          | some v => dictInsert d o.id v
          | none => d) acc =
        acc ++ objs.filterMap
          (fun o => (hist.lookup o.id).map (fun v => (o.id, v))) := by
  intro objs
  induction objs with
  | nil => intro acc _ _; simp
  | cons o rest ih =>
    intro acc hnd hdisj
    have hpair : (∀ x ∈ rest, ¬x.id = o.id) ∧
        (rest.map TrackedObject.id).Nodup := by simpa using hnd
    have hndr : (rest.map TrackedObject.id).Nodup := hpair.2
    rcases hl : hist.lookup o.id with _ | v
    · simp only [List.foldl_cons, hl, List.filterMap_cons, Option.map_none]
      exact ih acc hndr
        (fun o' ho' kv hkv => hdisj o' (List.mem_cons_of_mem o ho') kv hkv)
    · have hnone : ¬(acc.any (fun kv => kv.1 = o.id) = true) := by
        rw [List.any_eq_true]
        rintro ⟨kv, hkv, hkv2⟩
        exact hdisj o (List.mem_cons_self o rest) kv hkv (by simpa using hkv2)
      have hins : dictInsert acc o.id v = acc ++ [(o.id, v)] := by
        rw [dictInsert, if_neg hnone]
      simp only [List.foldl_cons, hl, hins, List.filterMap_cons,
        Option.map_some]
      rw [ih (acc ++ [(o.id, v)]) hndr ?_]
      · simp
      · intro o' ho' kv hkv
        rcases List.mem_append.mp hkv with hkv | hkv
        · exact hdisj o' (List.mem_cons_of_mem o ho') kv hkv
        · have hkv1 : kv = (o.id, v) := by simpa using hkv
          subst hkv1
          intro hcon
          exact hpair.1 o' ho' (by simpa using hcon.symm)

/-- C8: with frame-skip stride FRAME_SKIP = 15, `compute_lane_speed` equals
`compute_average_speed` applied to the histories of the lane's object ids
that are present in the track history, with the nominal fps divided by the
stride (the effective frame rate). -/
theorem c8_effective_fps (objs : List TrackedObject)
    (hist : List (ℕ × List (ℤ × ℤ))) (fps : ℝ)
    (hnd : (objs.map TrackedObject.id).Nodup) :
    FRAME_SKIP = 15 ∧
    compute_lane_speed objs hist fps =
      compute_average_speed
        (objs.filterMap (fun o => (hist.lookup o.id).map (fun v => (o.id, v))))
        (fps / FRAME_SKIP) := by
  refine ⟨rfl, ?_⟩
  rw [compute_lane_speed, laneTracks,
    laneTracks_go hist objs [] hnd (by simp)]
  simp

/-- C8 witness: one lane object whose id has a two-point history; the lane
speed at nominal fps 30 is the average speed of that history at effective
fps 30 / 15. -/
theorem c8_witness :
    (([⟨1, ⟨1, 1, 11, 11⟩, "car"⟩] : List TrackedObject).map
      TrackedObject.id).Nodup ∧
    compute_lane_speed [⟨1, ⟨1, 1, 11, 11⟩, "car"⟩] [(1, [(1, 1), (4, 5)])] 30 =
      compute_average_speed [(1, [(1, 1), (4, 5)])] (30 / FRAME_SKIP) := by
  refine ⟨by decide, ?_⟩
  have h := c8_effective_fps [⟨1, ⟨1, 1, 11, 11⟩, "car"⟩]
    [(1, [(1, 1), (4, 5)])] 30 (by decide)
  rw [h.2]
  norm_num [List.filterMap_cons, List.lookup]
